import Mathlib

/-!
Shallow embedding of `src/shared-game-utils.js`: a browser utility library
with three independent components (GameErrorHandler, GameAccessibility,
GamePerformanceMonitor).  JS arrays are Lean lists (push = append at the
tail, shift = drop the head), DOM state is explicit records, wall-clock
times are rationals, and `Math.round` is Mathlib's `round` on ℚ
(both are floor of x + 1/2 on the non-negative values that occur here).

The file first gives the definitions translated from the source, then the
theorems settling the spec claims.
-/

-- ==================== Shared definitions ====================

/-- The bounded-ring push used by all three history buffers in the source:
`arr.push(x); if (arr.length > cap) arr.shift();`. -/
def pushEvict (cap : Nat) (l : List α) (x : α) : List α :=
  let l2 := l ++ [x]
  if l2.length > cap then l2.drop 1 else l2

/-- The last `cap` elements of a list (all of it when shorter). -/
def lastN (cap : Nat) (l : List α) : List α :=
  l.drop (l.length - cap)

-- ==================== GameErrorHandler ====================

namespace GameErrorHandler

/-- The record built by `handleError`: timestamp, game name, source tag,
message, optional stack. -/
structure ErrorInfo where
  timestamp : Nat
  game : String
  source : String
  message : String
  stack : Option String
deriving Repr, DecidableEq

/-- Instance state of `GameErrorHandler`.  Besides the fields of the JS
constructor, the ambient effects of `init` (window listeners, canvas
prototype patches, rAF wrapper) are modelled as counters so that
idempotence is observable. -/
structure State where
  gameName : String
  errors : List ErrorInfo
  maxErrors : Nat
  initialized : Bool
  windowListeners : Nat
  canvasPatches : Nat
  rafPatches : Nat
deriving Repr, DecidableEq

/-- `new GameErrorHandler(gameName)`. -/
def mkState (gameName : String) : State :=
  { gameName := gameName, errors := [], maxErrors := 50, initialized := false
    windowListeners := 0, canvasPatches := 0, rafPatches := 0 }

/-- `init()`: guarded by `initialized`; registers two window listeners,
patches three canvas methods, wraps requestAnimationFrame. -/
def init (s : State) : State :=
  if s.initialized then s
  else
    { s with
      windowListeners := s.windowListeners + 2
      canvasPatches := s.canvasPatches + 3
      rafPatches := s.rafPatches + 1
      initialized := true }

/-- `handleError(error, source)`: push the record, evict the oldest past
`maxErrors`. -/
def handleError (s : State) (e : ErrorInfo) : State :=
  { s with errors := pushEvict s.maxErrors s.errors e }

/-- Fold a sequence of captured faults through `handleError`. -/
def run (s : State) (es : List ErrorInfo) : State :=
  es.foldl handleError s

/-- Result shape of `getErrorStats()`. -/
structure ErrorStats where
  total : Nat
  recent : List ErrorInfo
  bySource : List (String × Nat)
deriving Repr, DecidableEq

/-- One step of the `reduce` building `bySource`:
`acc[error.source] = (acc[error.source] || 0) + 1`. -/
def bumpSource (acc : List (String × Nat)) (src : String) : List (String × Nat) :=
  if acc.any (fun kv => kv.1 == src) then
    acc.map (fun kv => if kv.1 == src then (kv.1, kv.2 + 1) else kv)
  else acc ++ [(src, 1)]

/-- `getErrorStats()`: total count, `slice(-10)` (the last ten records),
counts grouped by source tag. -/
def getErrorStats (s : State) : ErrorStats :=
  { total := s.errors.length
    recent := s.errors.drop (s.errors.length - 10)
    bySource := s.errors.foldl (fun acc e => bumpSource acc e.source) [] }

/-- `clearErrors()`. -/
def clearErrors (s : State) : State :=
  { s with errors := [] }

end GameErrorHandler

-- ==================== GameAccessibility ====================

namespace GameAccessibility

/-- A `<button>` element as the sweep sees it: `aria-label` and `title`
attributes (absent = `none`, mirroring `getAttribute` returning null),
text content, id, and class list. -/
structure Button where
  ariaLabel : Option String
  textContent : String
  title : Option String
  id : String
  classes : List String
deriving Repr, DecidableEq

/-- The document as the button sweep sees it: the buttons returned by
`querySelectorAll('button')` and the number of `<style>` elements appended
to `document.head`. -/
structure Doc where
  buttons : List Button
  headStyles : Nat
deriving Repr, DecidableEq

/-- JS `a || b` on strings, where `getAttribute`'s null is conflated with
the empty string (both are falsy). -/
def jsOrString (a b : String) : String :=
  if a = "" then b else a

/-- `String.prototype.trim()`: strip leading and trailing whitespace. -/
def jsTrim (s : String) : String :=
  String.mk (((s.data.dropWhile Char.isWhitespace).reverse.dropWhile
    Char.isWhitespace).reverse)

/-- `getButtonLabel(button)`: aria-label ‖ textContent.trim() ‖ title ‖ id
‖ the generic fallback. -/
def getButtonLabel (b : Button) : String :=
  jsOrString (b.ariaLabel.getD "")
    (jsOrString (jsTrim b.textContent)
      (jsOrString (b.title.getD "")
        (jsOrString b.id "按鈕")))

/-- The per-button body of the `forEach` in `addButtonAccessibility`:
set a missing aria-label, then — when the button lacks the
`has-focus-style` marker class — add the class, create a style element and
append it to the head (returned as the injection count 0 or 1). -/
def annotateButton (b : Button) : Button × Nat :=
  let b1 := if b.ariaLabel.isSome then b
            else { b with ariaLabel := some (getButtonLabel b) }
  if b1.classes.contains "has-focus-style" then (b1, 0)
  else ({ b1 with classes := b1.classes ++ ["has-focus-style"] }, 1)

/-- `addButtonAccessibility()`: run `annotateButton` over every button;
each injection appends one style element to the head. -/
def addButtonAccessibility (d : Doc) : Doc :=
  { buttons := d.buttons.map (fun b => (annotateButton b).1)
    headStyles := d.headStyles + (d.buttons.map (fun b => (annotateButton b).2)).sum }

/-- The hidden live region `#screen-reader-announcements`. -/
structure LiveRegion where
  ariaLive : String
  ariaAtomic : String
  cssText : String
  text : String
deriving Repr, DecidableEq

/-- The inline style hiding the live region. -/
def hiddenCss : String :=
  "position: absolute; left: -9999px; width: 1px; height: 1px; overflow: hidden;"

/-- Live-region state: the region (if created) and the fire times of the
pending `setTimeout` clears. -/
structure AnnounceState where
  liveRegion : Option LiveRegion
  pending : List ℚ
deriving Repr, DecidableEq

/-- `announceToScreenReader(message, priority)` at wall-clock `now`:
lazily create the region (aria-live is set only here), write the message,
and unconditionally schedule a clear at `now + 1000`. -/
def announceToScreenReader (st : AnnounceState) (now : ℚ)
    (message : String) (priority : String) : AnnounceState :=
  let region :=
    match st.liveRegion with
    | none => { ariaLive := priority, ariaAtomic := "true"
                cssText := hiddenCss, text := message }
    | some r => { r with text := message }
  { liveRegion := some region, pending := st.pending ++ [now + 1000] }

/-- A scheduled clear firing at time `t`: if such a timeout is pending it
empties the region's text and is consumed. -/
def fireClear (st : AnnounceState) (t : ℚ) : AnnounceState :=
  if t ∈ st.pending then
    { liveRegion := st.liveRegion.map (fun r => { r with text := "" })
      pending := st.pending.erase t }
  else st

/-- Instance state of `GameAccessibility`: the document plus counters for
the ambient effects of `init` (the image sweep, the keyboard-navigation
sweep, the help overlay, its F1 keydown listener, and the forced-colors
media-query subscription), so that idempotence is observable. -/
structure AccState where
  doc : Doc
  imageSweeps : Nat
  containerSweeps : Nat
  helpOverlays : Nat
  keydownListeners : Nat
  mediaQueryListeners : Nat
  initialized : Bool
deriving Repr, DecidableEq

/-- `init()`: guarded by `initialized`; runs the button sweep, the image
sweep, keyboard navigation (help overlay + F1 listener), and subscribes to
the forced-colors media query. -/
def init (a : AccState) : AccState :=
  if a.initialized then a
  else
    { a with
      doc := addButtonAccessibility a.doc
      imageSweeps := a.imageSweeps + 1
      containerSweeps := a.containerSweeps + 1
      helpOverlays := a.helpOverlays + 1
      keydownListeners := a.keydownListeners + 1
      mediaQueryListeners := a.mediaQueryListeners + 1
      initialized := true }

end GameAccessibility

-- ==================== GamePerformanceMonitor ====================

namespace GamePerformanceMonitor

/-- One entry of the memory series: the three heap byte counts and a
timestamp. -/
structure MemorySnapshot where
  usedJSHeapSize : Nat
  totalJSHeapSize : Nat
  jsHeapSizeLimit : Nat
  timestamp : Nat
deriving Repr, DecidableEq

/-- Instance state of `GamePerformanceMonitor`: the constructor fields
(`metrics.fps`, `metrics.memory`, `metrics.loadTime`, `frameCount`,
`lastTime`, `initialized`), whether the platform exposes
`performance.memory`, and counters for the loops `init` starts. -/
structure State where
  gameName : String
  fps : List ℤ
  memory : List MemorySnapshot
  loadTime : Option ℚ
  frameCount : Nat
  lastTime : ℚ
  initialized : Bool
  hasMemoryAPI : Bool
  fpsLoops : Nat
  memLoops : Nat
deriving Repr, DecidableEq

/-- `new GamePerformanceMonitor(gameName)` at wall-clock `now` on a
platform with or without `performance.memory`. -/
def mkState (gameName : String) (now : ℚ) (hasMemoryAPI : Bool) : State :=
  { gameName := gameName, fps := [], memory := [], loadTime := none
    frameCount := 0, lastTime := now, initialized := false
    hasMemoryAPI := hasMemoryAPI, fpsLoops := 0, memLoops := 0 }

/-- `init()` at wall-clock `now`: guarded by `initialized`; records the
load time, starts the FPS loop, and starts the memory loop only when
`performance.memory` exists. -/
def init (s : State) (now : ℚ) : State :=
  if s.initialized then s
  else
    { s with
      loadTime := some now
      fpsLoops := s.fpsLoops + 1
      memLoops := s.memLoops + (if s.hasMemoryAPI then 1 else 0)
      initialized := true }

/-- One animation-frame callback of `measureFPS` at wall-clock
`currentTime`: increment the frame counter; once a second has elapsed,
record `round(count * 1000 / elapsed)` (evicting the oldest sample past
60), reset the counter and move the anchor. -/
def measureFPS (s : State) (currentTime : ℚ) : State :=
  if currentTime - s.lastTime ≥ 1000 then
    { s with
      fps := pushEvict 60 s.fps
        (round ((((s.frameCount + 1 : Nat)) : ℚ) * 1000 / (currentTime - s.lastTime)))
      frameCount := 0
      lastTime := currentTime }
  else { s with frameCount := s.frameCount + 1 }

/-- One 5-second interval tick of the memory monitor: push the snapshot,
evicting the oldest past 60. -/
def memoryTick (s : State) (m : MemorySnapshot) : State :=
  { s with memory := pushEvict 60 s.memory m }

/-- Run the FPS callback over a schedule of frame timestamps. -/
def runFrames (s : State) (ts : List ℚ) : State :=
  ts.foldl measureFPS s

/-- Run the memory interval over a sequence of snapshots. -/
def runMemory (s : State) (ms : List MemorySnapshot) : State :=
  ms.foldl memoryTick s

/-- Result shape of `getPerformanceReport()`. -/
structure Report where
  game : String
  loadTime : Option ℚ
  currentFPS : ℤ
  averageFPS : ℤ
  minFPS : ℤ
  maxFPS : ℤ
  fpsSamples : Nat
  memorySamples : Nat
  lastMemory : Option MemorySnapshot
deriving Repr, DecidableEq

/-- `getPerformanceReport()`: last/mean/min/max over the FPS window (0 on
an empty window), sample counts, and the most recent memory snapshot. -/
def getPerformanceReport (s : State) : Report :=
  { game := s.gameName
    loadTime := s.loadTime
    currentFPS := if s.fps.length > 0 then (s.fps.getLast?).getD 0 else 0
    averageFPS := if s.fps.length > 0 then round ((s.fps.sum : ℚ) / (s.fps.length : ℚ)) else 0
    minFPS := if s.fps.length > 0 then (s.fps.min?).getD 0 else 0
    maxFPS := if s.fps.length > 0 then (s.fps.max?).getD 0 else 0
    fpsSamples := s.fps.length
    memorySamples := s.memory.length
    lastMemory := if s.memory.length > 0 then s.memory.getLast? else none }

/-- The quality-reduction suggestion emitted when `averageFPS < 30`. -/
def sugLowFPS : String := "遊戲FPS較低，建議降低圖形質量或關閉其他應用程式"

/-- The stronger warning emitted when `averageFPS < 20`. -/
def sugVeryLowFPS : String := "遊戲FPS非常低，可能影響遊戲體驗"

/-- The restart suggestion emitted when the last used heap exceeds 500 MiB. -/
def sugHighMemory : String := "遊戲內存使用較高，建議定期重啟遊戲"

/-- `getPerformanceSuggestions()`: advisory strings pushed in order from
the report's fixed thresholds. -/
def getPerformanceSuggestions (s : State) : List String :=
  let report := getPerformanceReport s
  let s1 : List String := []
  let s2 := if report.averageFPS < 30 then s1 ++ [sugLowFPS] else s1
  let s3 := if report.averageFPS < 20 then s2 ++ [sugVeryLowFPS] else s2
  match report.lastMemory with
  | some m => if m.usedJSHeapSize > 500 * 1024 * 1024 then s3 ++ [sugHighMemory] else s3
  | none => s3

end GamePerformanceMonitor

/-- The frame schedule of a driver delivering exactly `N` frames uniformly
over the 1000 ms following the Sampler's current anchor: frame `i` arrives
at `lastTime + (i + 1) * (1000 / N)`. -/
def uniformFrameTimes (s : GamePerformanceMonitor.State) (N : Nat) : List ℚ :=
  (List.range N).map (fun i => s.lastTime + ((i + 1 : ℕ) : ℚ) * (1000 / (N : ℚ)))

-- ==================== Ring-buffer lemmas ====================

theorem lastN_of_le {cap : Nat} {l : List α} (h : l.length ≤ cap) :
    lastN cap l = l := by
  simp [lastN, Nat.sub_eq_zero_of_le h]

theorem length_lastN (cap : Nat) (l : List α) :
    (lastN cap l).length = min cap l.length := by
  simp [lastN]
  omega

theorem pushEvict_eq_lastN {cap : Nat} {l : List α} (x : α)
    (h : l.length ≤ cap) :
    pushEvict cap l x = lastN cap (l ++ [x]) := by
  unfold pushEvict lastN
  simp only [List.length_append, List.length_cons, List.length_nil]
  rcases Nat.lt_or_ge l.length cap with hlt | hge
  · rw [if_neg (by omega)]
    have : l.length + 1 - cap = 0 := by omega
    simp [this]
  · have hcap : l.length = cap := le_antisymm h hge
    rw [if_pos (by omega)]
    have : l.length + 1 - cap = 1 := by omega
    simp [this]

theorem length_pushEvict_le {cap : Nat} {l : List α} (x : α)
    (h : l.length ≤ cap) :
    (pushEvict cap l x).length ≤ cap := by
  rw [pushEvict_eq_lastN x h, length_lastN]
  omega

theorem lastN_append_lastN (cap : Nat) (l tail2 : List α) :
    lastN cap (lastN cap l ++ tail2) = lastN cap (l ++ tail2) := by
  unfold lastN
  rw [List.drop_append_eq_append_drop, List.drop_append_eq_append_drop,
    List.drop_drop]
  have h1 : l.length - cap + ((List.drop (l.length - cap) l ++ tail2).length - cap)
      = (l ++ tail2).length - cap := by
    simp only [List.length_append, List.length_drop]
    omega
  have h2 : (List.drop (l.length - cap) l ++ tail2).length - cap
        - (List.drop (l.length - cap) l).length
      = (l ++ tail2).length - cap - l.length := by
    simp only [List.length_append, List.length_drop]
    omega
  rw [h1, h2]

theorem foldl_pushEvict (cap : Nat) (xs : List α) :
    ∀ l : List α, l.length ≤ cap →
      xs.foldl (pushEvict cap) l = lastN cap (l ++ xs) := by
  induction xs using List.reverseRecOn with
  | nil => intro l h; simp [lastN_of_le h]
  | append_singleton xs x ih =>
    intro l h
    rw [List.foldl_append, List.foldl_cons, List.foldl_nil, ih l h]
    have hlen : (lastN cap (l ++ xs)).length ≤ cap := by
      rw [length_lastN]; omega
    rw [pushEvict_eq_lastN x hlen, lastN_append_lastN, List.append_assoc]

-- ==================== C1: the fault ring ====================

theorem run_errors_from_fresh (g : String) (es : List GameErrorHandler.ErrorInfo) :
    (GameErrorHandler.run (GameErrorHandler.mkState g) es).errors = lastN 50 es := by
  have hmax : ∀ (s : GameErrorHandler.State) (es : List GameErrorHandler.ErrorInfo),
      (GameErrorHandler.run s es).errors = es.foldl (pushEvict s.maxErrors) s.errors := by
    intro s es
    induction es generalizing s with
    | nil => rfl
    | cons e es ih =>
      rw [GameErrorHandler.run, List.foldl_cons, List.foldl_cons,
        ← GameErrorHandler.run, ih]
      rfl
  rw [hmax]
  have h1 : (GameErrorHandler.mkState g).maxErrors = 50 := rfl
  have h2 : (GameErrorHandler.mkState g).errors = [] := rfl
  rw [h1, h2, foldl_pushEvict 50 es [] (by simp)]
  simp

/-- Claim C1: for every sequence of captured faults, the ring stores exactly
the most recent min(n, 50) faults in arrival order, hence after more than 50
faults `getErrorStats().total` is exactly 50 and never exceeds 50, and the
oldest record is evicted first when the ring is full. -/
theorem C1_bounded_error_ring (g : String) (es : List GameErrorHandler.ErrorInfo) :
    (GameErrorHandler.getErrorStats (GameErrorHandler.run (GameErrorHandler.mkState g) es)).total
      = min 50 es.length ∧
    (GameErrorHandler.getErrorStats (GameErrorHandler.run (GameErrorHandler.mkState g) es)).total ≤ 50 ∧
    (GameErrorHandler.run (GameErrorHandler.mkState g) es).errors
      = es.drop (es.length - 50) := by
  have h := run_errors_from_fresh g es
  refine ⟨?_, ?_, ?_⟩
  · simp [GameErrorHandler.getErrorStats, h, length_lastN]
  · simp only [GameErrorHandler.getErrorStats, h, length_lastN]
    omega
  · rw [h]; rfl

-- ==================== C5: focus-style injection ====================

theorem annotateButton_classes (b : GameAccessibility.Button) :
    (GameAccessibility.annotateButton b).1.classes
      = (if "has-focus-style" ∈ b.classes then b.classes
         else b.classes ++ ["has-focus-style"]) ∧
    (GameAccessibility.annotateButton b).2
      = (if "has-focus-style" ∈ b.classes then 0 else 1) := by
  unfold GameAccessibility.annotateButton
  by_cases hc : "has-focus-style" ∈ b.classes <;>
    cases hb : b.ariaLabel.isSome <;> simp [hb, hc]

theorem sum_annotate_counts (xs : List GameAccessibility.Button) :
    (xs.map (fun b => (GameAccessibility.annotateButton b).2)).sum
      = (xs.filter (fun b => !(b.classes.contains "has-focus-style"))).length := by
  induction xs with
  | nil => rfl
  | cons b xs ih =>
    rw [List.map_cons, List.sum_cons, ih, List.filter_cons,
      (annotateButton_classes b).2]
    by_cases hc : "has-focus-style" ∈ b.classes
    · simp [hc]
    · simp [hc]
      omega

/-- Claim C5 counterexample: a sweep over a document holding two buttons
that both lack the `has-focus-style` marker class injects two style
elements, not at most one in total. -/
theorem C5_counterexample_two_injections :
    ¬ ((GameAccessibility.addButtonAccessibility
        { buttons := [{ ariaLabel := none, textContent := "A", title := none
                        id := "", classes := [] },
                      { ariaLabel := none, textContent := "B", title := none
                        id := "", classes := [] }]
          headStyles := 0 }).headStyles ≤ 1) := by
  decide

/-- Claim C5 (amended): during the init sweep the focus-visible style rule
is injected at most once per button — exactly one new style element for
each visited button lacking the `has-focus-style` marker class, and none
for a button already carrying it; consequently a second sweep over the
same document injects nothing further. -/
theorem C5_style_injection_per_button (d : GameAccessibility.Doc) :
    (GameAccessibility.addButtonAccessibility d).headStyles
      = d.headStyles
        + (d.buttons.filter (fun b => !(b.classes.contains "has-focus-style"))).length ∧
    (GameAccessibility.addButtonAccessibility
        (GameAccessibility.addButtonAccessibility d)).headStyles
      = (GameAccessibility.addButtonAccessibility d).headStyles := by
  have hcount : ∀ d' : GameAccessibility.Doc,
      (GameAccessibility.addButtonAccessibility d').headStyles
        = d'.headStyles
          + (d'.buttons.filter (fun b => !(b.classes.contains "has-focus-style"))).length := by
    intro d'
    rw [GameAccessibility.addButtonAccessibility, sum_annotate_counts]
  refine ⟨hcount d, ?_⟩
  rw [hcount (GameAccessibility.addButtonAccessibility d)]
  have hmarked : ∀ b : GameAccessibility.Button,
      "has-focus-style" ∈ (GameAccessibility.annotateButton b).1.classes := by
    intro b
    rw [(annotateButton_classes b).1]
    by_cases hc : "has-focus-style" ∈ b.classes <;> simp [hc]
  have hbuttons : (GameAccessibility.addButtonAccessibility d).buttons
      = d.buttons.map (fun b => (GameAccessibility.annotateButton b).1) := rfl
  have hfil : ((GameAccessibility.addButtonAccessibility d).buttons.filter
      (fun b => !(b.classes.contains "has-focus-style"))) = [] := by
    rw [hbuttons, List.filter_eq_nil_iff]
    intro b hb
    rcases List.mem_map.1 hb with ⟨b0, _, rfl⟩
    simp [hmarked b0]
  rw [hfil]
  rfl

-- ==================== C6, C10: the live region ====================

/-- Claim C6: after `announceToScreenReader(m, p)` at time `now` the live
region's text equals `m`; when the clear scheduled for `now + 1000` fires
the text equals the empty string; and the scheduled clear is unconditional
— a newer `announceToScreenReader` call leaves it pending. -/
theorem C6_announce_sets_then_clears (st : GameAccessibility.AnnounceState)
    (now : ℚ) (m p : String) :
    ((GameAccessibility.announceToScreenReader st now m p).liveRegion.map
        GameAccessibility.LiveRegion.text = some m) ∧
    ((GameAccessibility.fireClear
        (GameAccessibility.announceToScreenReader st now m p) (now + 1000)).liveRegion.map
        GameAccessibility.LiveRegion.text = some "") ∧
    (∀ (now2 : ℚ) (m2 p2 : String), (now + 1000) ∈
      (GameAccessibility.announceToScreenReader
        (GameAccessibility.announceToScreenReader st now m p) now2 m2 p2).pending) := by
  refine ⟨?_, ?_, ?_⟩
  · cases h : st.liveRegion <;>
      simp [GameAccessibility.announceToScreenReader, h]
  · cases h : st.liveRegion <;>
      simp [GameAccessibility.announceToScreenReader, GameAccessibility.fireClear, h]
  · intro now2 m2 p2
    cases h : st.liveRegion <;>
      simp [GameAccessibility.announceToScreenReader, h]

/-- Claim C10: the live region's aria-live priority, aria-atomic attribute
and hiding style are fixed by the call that creates the region; any call on
an existing region changes only its text, whatever priority it passes. -/
theorem C10_live_region_attributes_fixed (st : GameAccessibility.AnnounceState)
    (now : ℚ) (m p : String) :
    (st.liveRegion = none →
      (GameAccessibility.announceToScreenReader st now m p).liveRegion
        = some { ariaLive := p, ariaAtomic := "true"
                 cssText := GameAccessibility.hiddenCss, text := m }) ∧
    (∀ r : GameAccessibility.LiveRegion, st.liveRegion = some r →
      (GameAccessibility.announceToScreenReader st now m p).liveRegion
        = some { r with text := m }) := by
  constructor
  · intro h
    simp [GameAccessibility.announceToScreenReader, h]
  · intro r h
    simp [GameAccessibility.announceToScreenReader, h]

/-- Witness for C10: a region created assertive keeps `aria-live:
assertive`, its `aria-atomic` attribute and its hiding style across a later
polite call; only the text becomes the new message. -/
theorem C10_live_region_attributes_fixed_witness :
    (GameAccessibility.announceToScreenReader
      { liveRegion := some { ariaLive := "assertive", ariaAtomic := "true"
                             cssText := GameAccessibility.hiddenCss, text := "old" }
        pending := [] } 0 "new" "polite").liveRegion
      = some { ariaLive := "assertive", ariaAtomic := "true"
               cssText := GameAccessibility.hiddenCss, text := "new" } :=
  (C10_live_region_attributes_fixed _ 0 "new" "polite").2 _ rfl

-- ==================== C7: the label fallback chain ====================

/-- Claim C7: `getButtonLabel` follows the fallback priority aria-label →
trimmed text content → title → id → generic fallback (JS `||`, so an
empty/absent stage falls through); a button lacking all four receives the
non-empty generic fallback `按鈕`, never the empty string. -/
theorem C7_button_label_fallback (b : GameAccessibility.Button) :
    (∀ s : String, b.ariaLabel = some s → s ≠ "" →
      GameAccessibility.getButtonLabel b = s) ∧
    (b.ariaLabel.getD "" = "" → GameAccessibility.jsTrim b.textContent ≠ "" →
      GameAccessibility.getButtonLabel b = GameAccessibility.jsTrim b.textContent) ∧
    (b.ariaLabel.getD "" = "" → GameAccessibility.jsTrim b.textContent = "" →
      ∀ t : String, b.title = some t → t ≠ "" →
        GameAccessibility.getButtonLabel b = t) ∧
    (b.ariaLabel.getD "" = "" → GameAccessibility.jsTrim b.textContent = "" → b.title.getD "" = "" →
      b.id ≠ "" → GameAccessibility.getButtonLabel b = b.id) ∧
    (b.ariaLabel.getD "" = "" → GameAccessibility.jsTrim b.textContent = "" → b.title.getD "" = "" →
      b.id = "" →
      GameAccessibility.getButtonLabel b = "按鈕" ∧ ("按鈕" : String) ≠ "") := by
  refine ⟨?_, ?_, ?_, ?_, ?_⟩
  · intro s hs hne
    simp [GameAccessibility.getButtonLabel, GameAccessibility.jsOrString, hs, hne]
  · intro h1 h2
    simp [GameAccessibility.getButtonLabel, GameAccessibility.jsOrString, h1, h2]
  · intro h1 h2 t ht hne
    simp [GameAccessibility.getButtonLabel, GameAccessibility.jsOrString, h1, h2, ht, hne]
  · intro h1 h2 h3 h4
    simp [GameAccessibility.getButtonLabel, GameAccessibility.jsOrString, h1, h2, h3, h4]
  · intro h1 h2 h3 h4
    exact ⟨by simp [GameAccessibility.getButtonLabel, GameAccessibility.jsOrString,
      h1, h2, h3, h4], by decide⟩

/-- Witness for C7: a button with no aria-label, no text, no title and no
id gets the generic fallback label, which is not the empty string. -/
theorem C7_button_label_fallback_witness :
    GameAccessibility.getButtonLabel
      { ariaLabel := none, textContent := "", title := none, id := "", classes := [] }
      = "按鈕" ∧ ("按鈕" : String) ≠ "" :=
  (C7_button_label_fallback
    { ariaLabel := none, textContent := "", title := none, id := "", classes := [] }).2.2.2.2
    rfl (by decide) rfl rfl

-- ==================== C2: bounded sample series ====================

theorem measureFPS_fps_cases (s : GamePerformanceMonitor.State) (t : ℚ) :
    (GamePerformanceMonitor.measureFPS s t).fps = s.fps ∨
    ∃ x : ℤ, (GamePerformanceMonitor.measureFPS s t).fps = pushEvict 60 s.fps x := by
  unfold GamePerformanceMonitor.measureFPS
  by_cases h : t - s.lastTime ≥ 1000
  · right
    exact ⟨_, by rw [if_pos h]⟩
  · left
    rw [if_neg h]

theorem runFrames_fps_length (s : GamePerformanceMonitor.State) (ts : List ℚ)
    (h : s.fps.length ≤ 60) :
    (GamePerformanceMonitor.runFrames s ts).fps.length ≤ 60 := by
  induction ts generalizing s with
  | nil => exact h
  | cons t ts ih =>
    rw [GamePerformanceMonitor.runFrames, List.foldl_cons,
      ← GamePerformanceMonitor.runFrames]
    apply ih
    rcases measureFPS_fps_cases s t with hc | ⟨x, hc⟩
    · rw [hc]; exact h
    · rw [hc]; exact length_pushEvict_le x h

theorem runMemory_memory (s : GamePerformanceMonitor.State)
    (ms : List GamePerformanceMonitor.MemorySnapshot) (h : s.memory.length ≤ 60) :
    (GamePerformanceMonitor.runMemory s ms).memory = lastN 60 (s.memory ++ ms) := by
  have hfold : ∀ (ms : List GamePerformanceMonitor.MemorySnapshot)
      (s : GamePerformanceMonitor.State),
      (GamePerformanceMonitor.runMemory s ms).memory
        = ms.foldl (pushEvict 60) s.memory := by
    intro ms
    induction ms with
    | nil => intro s; rfl
    | cons m ms ih =>
      intro s
      rw [GamePerformanceMonitor.runMemory, List.foldl_cons,
        ← GamePerformanceMonitor.runMemory, ih, List.foldl_cons]
      rfl
  rw [hfold, foldl_pushEvict 60 ms s.memory h]

/-- Claim C2: from a fresh Sampler, the FPS series and the memory series
each hold at most 60 entries however many frame reports or snapshots
arrive; the memory series is exactly the most recent 60 snapshots in FIFO
order, and each FPS step either leaves the series alone or appends one
sample evicting the oldest entry only when the series exceeds 60. -/
theorem C2_bounded_sample_series (g : String) (now : ℚ) (hm : Bool) :
    (∀ ts : List ℚ,
      (GamePerformanceMonitor.runFrames (GamePerformanceMonitor.mkState g now hm) ts).fps.length
        ≤ 60) ∧
    (∀ ms : List GamePerformanceMonitor.MemorySnapshot,
      (GamePerformanceMonitor.runMemory (GamePerformanceMonitor.mkState g now hm) ms).memory
          = ms.drop (ms.length - 60) ∧
      (GamePerformanceMonitor.runMemory (GamePerformanceMonitor.mkState g now hm) ms).memory.length
          ≤ 60) ∧
    (∀ (s : GamePerformanceMonitor.State) (t : ℚ),
      (GamePerformanceMonitor.measureFPS s t).fps = s.fps ∨
      ∃ x : ℤ, (GamePerformanceMonitor.measureFPS s t).fps
        = (if (s.fps ++ [x]).length > 60 then (s.fps ++ [x]).drop 1 else s.fps ++ [x])) := by
  refine ⟨?_, ?_, ?_⟩
  · intro ts
    exact runFrames_fps_length _ ts (by simp [GamePerformanceMonitor.mkState])
  · intro ms
    have h := runMemory_memory (GamePerformanceMonitor.mkState g now hm) ms
      (by simp [GamePerformanceMonitor.mkState])
    have hnil : (GamePerformanceMonitor.mkState g now hm).memory = [] := rfl
    rw [hnil] at h
    constructor
    · rw [h]; rfl
    · rw [h, length_lastN]; omega
  · intro s t
    rcases measureFPS_fps_cases s t with hc | ⟨x, hc⟩
    · exact Or.inl hc
    · exact Or.inr ⟨x, hc⟩

-- ==================== C9: the empty window ====================

/-- Claim C9: on a Sampler whose FPS series is empty,
`getPerformanceReport()` reports currentFPS, averageFPS, minFPS and maxFPS
all 0, and since 0 is below both thresholds `getPerformanceSuggestions()`
already contains both low-FPS suggestions. -/
theorem C9_empty_series_reports_zero (s : GamePerformanceMonitor.State)
    (h : s.fps = []) :
    (GamePerformanceMonitor.getPerformanceReport s).currentFPS = 0 ∧
    (GamePerformanceMonitor.getPerformanceReport s).averageFPS = 0 ∧
    (GamePerformanceMonitor.getPerformanceReport s).minFPS = 0 ∧
    (GamePerformanceMonitor.getPerformanceReport s).maxFPS = 0 ∧
    GamePerformanceMonitor.sugLowFPS ∈ GamePerformanceMonitor.getPerformanceSuggestions s ∧
    GamePerformanceMonitor.sugVeryLowFPS ∈ GamePerformanceMonitor.getPerformanceSuggestions s := by
  refine ⟨?_, ?_, ?_, ?_, ?_, ?_⟩ <;>
    simp only [GamePerformanceMonitor.getPerformanceReport,
      GamePerformanceMonitor.getPerformanceSuggestions, h] <;>
    simp <;>
    rcases hmem : (if s.memory.length > 0 then s.memory.getLast? else none) with _ | m <;>
    simp [hmem] <;>
    by_cases hused : m.usedJSHeapSize > 500 * 1024 * 1024 <;>
    simp [hused]

/-- Witness for C9: a freshly constructed Sampler (empty FPS series)
reports zeros and already suggests both low-FPS advisories. -/
theorem C9_empty_series_reports_zero_witness :
    (GamePerformanceMonitor.getPerformanceReport
      (GamePerformanceMonitor.mkState "遊戲" 0 false)).currentFPS = 0 ∧
    (GamePerformanceMonitor.getPerformanceReport
      (GamePerformanceMonitor.mkState "遊戲" 0 false)).averageFPS = 0 ∧
    (GamePerformanceMonitor.getPerformanceReport
      (GamePerformanceMonitor.mkState "遊戲" 0 false)).minFPS = 0 ∧
    (GamePerformanceMonitor.getPerformanceReport
      (GamePerformanceMonitor.mkState "遊戲" 0 false)).maxFPS = 0 ∧
    GamePerformanceMonitor.sugLowFPS ∈ GamePerformanceMonitor.getPerformanceSuggestions
      (GamePerformanceMonitor.mkState "遊戲" 0 false) ∧
    GamePerformanceMonitor.sugVeryLowFPS ∈ GamePerformanceMonitor.getPerformanceSuggestions
      (GamePerformanceMonitor.mkState "遊戲" 0 false) :=
  C9_empty_series_reports_zero (GamePerformanceMonitor.mkState "遊戲" 0 false) rfl

-- ==================== C3: suggestion thresholds ====================

theorem mem_getPerformanceSuggestions (s : GamePerformanceMonitor.State) (x : String) :
    x ∈ GamePerformanceMonitor.getPerformanceSuggestions s ↔
      ((x = GamePerformanceMonitor.sugLowFPS ∧
          (GamePerformanceMonitor.getPerformanceReport s).averageFPS < 30) ∨
       (x = GamePerformanceMonitor.sugVeryLowFPS ∧
          (GamePerformanceMonitor.getPerformanceReport s).averageFPS < 20) ∨
       (x = GamePerformanceMonitor.sugHighMemory ∧
          ∃ m : GamePerformanceMonitor.MemorySnapshot,
            (GamePerformanceMonitor.getPerformanceReport s).lastMemory = some m ∧
            m.usedJSHeapSize > 500 * 1024 * 1024)) := by
  simp only [GamePerformanceMonitor.getPerformanceSuggestions]
  rcases hmem : (GamePerformanceMonitor.getPerformanceReport s).lastMemory with _ | m
  · by_cases h30 : (GamePerformanceMonitor.getPerformanceReport s).averageFPS < 30 <;>
      by_cases h20 : (GamePerformanceMonitor.getPerformanceReport s).averageFPS < 20 <;>
      simp [hmem, h30, h20]
  · by_cases h30 : (GamePerformanceMonitor.getPerformanceReport s).averageFPS < 30 <;>
      by_cases h20 : (GamePerformanceMonitor.getPerformanceReport s).averageFPS < 20 <;>
      by_cases hused : m.usedJSHeapSize > 500 * 1024 * 1024 <;>
      simp [hmem, h30, h20, hused]

/-- Claim C3: `getPerformanceSuggestions()` contains the quality-reduction
suggestion exactly when the computed mean FPS is 29 or below, contains both
it and the stronger warning exactly when the computed mean FPS is 19 or
below, and contains neither when the computed mean FPS is 30 or above. -/
theorem C3_suggestion_thresholds (s : GamePerformanceMonitor.State) :
    (GamePerformanceMonitor.sugLowFPS ∈ GamePerformanceMonitor.getPerformanceSuggestions s
      ↔ (GamePerformanceMonitor.getPerformanceReport s).averageFPS ≤ 29) ∧
    ((GamePerformanceMonitor.sugLowFPS ∈ GamePerformanceMonitor.getPerformanceSuggestions s ∧
      GamePerformanceMonitor.sugVeryLowFPS ∈ GamePerformanceMonitor.getPerformanceSuggestions s)
      ↔ (GamePerformanceMonitor.getPerformanceReport s).averageFPS ≤ 19) ∧
    (30 ≤ (GamePerformanceMonitor.getPerformanceReport s).averageFPS →
      GamePerformanceMonitor.sugLowFPS ∉ GamePerformanceMonitor.getPerformanceSuggestions s ∧
      GamePerformanceMonitor.sugVeryLowFPS ∉ GamePerformanceMonitor.getPerformanceSuggestions s) := by
  have hne1 : GamePerformanceMonitor.sugLowFPS ≠ GamePerformanceMonitor.sugVeryLowFPS := by
    decide
  have hne2 : GamePerformanceMonitor.sugLowFPS ≠ GamePerformanceMonitor.sugHighMemory := by
    decide
  have hne3 : GamePerformanceMonitor.sugVeryLowFPS ≠ GamePerformanceMonitor.sugHighMemory := by
    decide
  have hmem1 := mem_getPerformanceSuggestions s GamePerformanceMonitor.sugLowFPS
  have hmem2 := mem_getPerformanceSuggestions s GamePerformanceMonitor.sugVeryLowFPS
  simp only [hne1, hne2, hne3, Ne.symm hne1, false_and, and_false, or_false, false_or,
    true_and, eq_self_iff_true] at hmem1 hmem2
  refine ⟨?_, ?_, ?_⟩
  · rw [hmem1]; omega
  · rw [hmem1, hmem2]; omega
  · intro h
    rw [hmem1, hmem2]; omega

/-- Witness for C3: a Sampler whose single FPS sample is 30 has computed
mean FPS 30, and its suggestions contain neither low-FPS advisory. -/
theorem C3_suggestion_thresholds_witness :
    GamePerformanceMonitor.sugLowFPS ∉ GamePerformanceMonitor.getPerformanceSuggestions
      { gameName := "g", fps := [30], memory := [], loadTime := none
        frameCount := 0, lastTime := 0, initialized := false
        hasMemoryAPI := false, fpsLoops := 0, memLoops := 0 } ∧
    GamePerformanceMonitor.sugVeryLowFPS ∉ GamePerformanceMonitor.getPerformanceSuggestions
      { gameName := "g", fps := [30], memory := [], loadTime := none
        frameCount := 0, lastTime := 0, initialized := false
        hasMemoryAPI := false, fpsLoops := 0, memLoops := 0 } :=
  (C3_suggestion_thresholds
    { gameName := "g", fps := [30], memory := [], loadTime := none
      frameCount := 0, lastTime := 0, initialized := false
      hasMemoryAPI := false, fpsLoops := 0, memLoops := 0 }).2.2
    (by norm_num [GamePerformanceMonitor.getPerformanceReport, round_eq])

-- ==================== C4: the uniform frame driver ====================

theorem measureFPS_noTrigger (s : GamePerformanceMonitor.State) (t : ℚ)
    (h : t - s.lastTime < 1000) :
    GamePerformanceMonitor.measureFPS s t = { s with frameCount := s.frameCount + 1 } := by
  unfold GamePerformanceMonitor.measureFPS
  rw [if_neg (not_le.mpr h)]

theorem runFrames_noTrigger (ts : List ℚ) :
    ∀ s : GamePerformanceMonitor.State, (∀ t ∈ ts, t - s.lastTime < 1000) →
      GamePerformanceMonitor.runFrames s ts
        = { s with frameCount := s.frameCount + ts.length } := by
  induction ts with
  | nil => intro s _; rfl
  | cons t ts ih =>
    intro s h
    rw [GamePerformanceMonitor.runFrames, List.foldl_cons,
      ← GamePerformanceMonitor.runFrames,
      measureFPS_noTrigger s t (h t (List.mem_cons_self t ts)),
      ih { s with frameCount := s.frameCount + 1 }
        (fun u hu => h u (List.mem_cons_of_mem t hu))]
    have harith : s.frameCount + 1 + ts.length = s.frameCount + (ts.length + 1) := by
      omega
    show ({ s with frameCount := s.frameCount + 1 + ts.length }
        : GamePerformanceMonitor.State) = _
    rw [harith]
    rfl

/-- Claim C4: a frame driver delivering exactly N ≥ 1 frames uniformly over
exactly 1000 ms since the anchor makes the Sampler append the single FPS
sample `round(N * 1000 / 1000) = N`; afterwards the frame counter is reset
to 0 and the anchor has advanced by exactly 1000 ms. -/
theorem C4_uniform_frames_fps (s : GamePerformanceMonitor.State) (N : Nat)
    (hN : 0 < N) (hfc : s.frameCount = 0) (hlen : s.fps.length < 60) :
    (GamePerformanceMonitor.runFrames s (uniformFrameTimes s N)).fps
      = s.fps ++ [(N : ℤ)] ∧
    (GamePerformanceMonitor.runFrames s (uniformFrameTimes s N)).frameCount = 0 ∧
    (GamePerformanceMonitor.runFrames s (uniformFrameTimes s N)).lastTime
      = s.lastTime + 1000 := by
  obtain ⟨M, rfl⟩ : ∃ M, N = M + 1 := ⟨N - 1, by omega⟩
  have hMpos : (0 : ℚ) < (M : ℚ) + 1 := by positivity
  have hcast : ((M + 1 : ℕ) : ℚ) = (M : ℚ) + 1 := by push_cast; ring
  have hsplit : uniformFrameTimes s (M + 1)
      = (List.range M).map
          (fun i => s.lastTime + ((i + 1 : ℕ) : ℚ) * (1000 / ((M + 1 : ℕ) : ℚ)))
        ++ [s.lastTime + ((M + 1 : ℕ) : ℚ) * (1000 / ((M + 1 : ℕ) : ℚ))] := by
    rw [uniformFrameTimes, List.range_succ, List.map_append, List.map_cons, List.map_nil]
  have helap : s.lastTime + ((M + 1 : ℕ) : ℚ) * (1000 / ((M + 1 : ℕ) : ℚ)) - s.lastTime
      = 1000 := by
    rw [add_sub_cancel_left, hcast]
    have hne : ((M : ℚ) + 1) ≠ 0 := ne_of_gt hMpos
    field_simp
  have hfirst : GamePerformanceMonitor.runFrames s
      ((List.range M).map
        (fun i => s.lastTime + ((i + 1 : ℕ) : ℚ) * (1000 / ((M + 1 : ℕ) : ℚ))))
      = { s with frameCount := s.frameCount + M } := by
    rw [runFrames_noTrigger _ s ?bound]
    · simp
    case bound =>
      intro t ht
      rcases List.mem_map.1 ht with ⟨i, hi, rfl⟩
      have hiM : i < M := List.mem_range.1 hi
      have hi1 : (i : ℚ) + 1 ≤ (M : ℚ) := by exact_mod_cast Nat.succ_le_of_lt hiM
      have hcast2 : ((i + 1 : ℕ) : ℚ) = (i : ℚ) + 1 := by push_cast; ring
      rw [add_sub_cancel_left, hcast, hcast2]
      rw [show ((i : ℚ) + 1) * (1000 / ((M : ℚ) + 1)) = ((i : ℚ) + 1) * 1000 / ((M : ℚ) + 1)
        from by ring]
      rw [div_lt_iff₀ hMpos]
      nlinarith
  rw [hsplit]
  simp only [GamePerformanceMonitor.runFrames] at hfirst ⊢
  rw [List.foldl_append, hfirst, List.foldl_cons, List.foldl_nil]
  unfold GamePerformanceMonitor.measureFPS
  split_ifs with hcond
  · refine ⟨?_, rfl, ?_⟩
    · show pushEvict 60 s.fps
        (round (((s.frameCount + M + 1 : ℕ) : ℚ) * 1000
          / (s.lastTime + ((M + 1 : ℕ) : ℚ) * (1000 / ((M + 1 : ℕ) : ℚ)) - s.lastTime)))
        = s.fps ++ [((M + 1 : ℕ) : ℤ)]
      rw [helap, hfc]
      simp only [Nat.zero_add]
      have h1000 : (1000 : ℚ) / 1000 = 1 := by norm_num
      rw [show ((M + 1 : ℕ) : ℚ) * 1000 / 1000
          = ((M + 1 : ℕ) : ℚ) * (1000 / 1000) from by ring]
      rw [h1000, mul_one, round_natCast]
      rw [pushEvict]
      simp only [List.length_append, List.length_cons, List.length_nil]
      rw [if_neg (by omega)]
    · show s.lastTime + ((M + 1 : ℕ) : ℚ) * (1000 / ((M + 1 : ℕ) : ℚ)) = s.lastTime + 1000
      have := helap
      linarith
  · exact absurd helap.ge hcond

/-- Witness for C4: one frame delivered exactly 1000 ms after the anchor of
a fresh Sampler records the single FPS sample 1, resets the counter and
moves the anchor to 1000. -/
theorem C4_uniform_frames_fps_witness :
    (GamePerformanceMonitor.runFrames (GamePerformanceMonitor.mkState "g" 0 false)
        (uniformFrameTimes (GamePerformanceMonitor.mkState "g" 0 false) 1)).fps
      = (GamePerformanceMonitor.mkState "g" 0 false).fps ++ [(1 : ℤ)] ∧
    (GamePerformanceMonitor.runFrames (GamePerformanceMonitor.mkState "g" 0 false)
        (uniformFrameTimes (GamePerformanceMonitor.mkState "g" 0 false) 1)).frameCount = 0 ∧
    (GamePerformanceMonitor.runFrames (GamePerformanceMonitor.mkState "g" 0 false)
        (uniformFrameTimes (GamePerformanceMonitor.mkState "g" 0 false) 1)).lastTime
      = (GamePerformanceMonitor.mkState "g" 0 false).lastTime + 1000 := by
  have h := C4_uniform_frames_fps (GamePerformanceMonitor.mkState "g" 0 false) 1
    (by decide) rfl (by decide)
  exact_mod_cast h

-- ==================== C8: idempotent init ====================

/-- Claim C8: `init()` is idempotent for all three components — a second
call on the same instance returns the state unchanged (no further listener
registration, DOM mutation, or loop start), guarded by the instance's
`initialized` flag. -/
theorem C8_init_idempotent (e : GameErrorHandler.State) (a : GameAccessibility.AccState)
    (p : GamePerformanceMonitor.State) (now now2 : ℚ) :
    GameErrorHandler.init (GameErrorHandler.init e) = GameErrorHandler.init e ∧
    GameAccessibility.init (GameAccessibility.init a) = GameAccessibility.init a ∧
    GamePerformanceMonitor.init (GamePerformanceMonitor.init p now) now2
      = GamePerformanceMonitor.init p now := by
  refine ⟨?_, ?_, ?_⟩
  · by_cases h : e.initialized <;> simp [GameErrorHandler.init, h]
  · by_cases h : a.initialized <;> simp [GameAccessibility.init, h]
  · by_cases h : p.initialized <;> simp [GamePerformanceMonitor.init, h]
